import Mathlib

/-!
Verification of the trace-context propagation library (`rust-otel-tools`).

The library's own code (`src/lib.rs`) is embedded directly:
`read_traceparent`, `update_traceparent`, `ToSpanContext::as_spancontext`,
`start_with_traceparent`, `start_with_spanlink`, `generate_traceparent`.
The process environment's single `TRACEPARENT` slot is modelled as an
`Option String` threaded explicitly; functions that mutate it return the
new slot value.  The external `traceparent` crate (codec) and the
opentelemetry tracing runtime are not part of the repository's sources,
so they are modelled from the specification (§4.1 codec contract, §6
Tracing Runtime collaborator contract); those definitions carry a
`Modelled from the spec:` doc comment.
-/

/-- A decoded W3C trace context (the `traceparent::Traceparent` type).
Fields per the spec data model: `version` (8-bit), `trace_id` (128-bit),
`parent_id` (64-bit), `flags` (8-bit); equality is field-wise and exact. -/
structure Traceparent where
  version : Nat
  trace_id : Nat
  parent_id : Nat
  flags : Nat
  deriving DecidableEq, Repr

/-- Decode-error taxonomy of the codec (spec §4.1 / §7). -/
inductive DecodeError where
  | unsupportedVersion
  | malformedStructure
  | invalidHex
  | zeroIdentifier
  deriving DecidableEq, Repr

/-- A character is a hexadecimal digit (either case accepted on input). -/
def isHexDigitChar (c : Char) : Bool :=
  (('0' ≤ c) && (c ≤ '9')) || (('a' ≤ c) && (c ≤ 'f')) || (('A' ≤ c) && (c ≤ 'F'))

/-- Numeric value of one hexadecimal digit character. -/
def hexVal (c : Char) : Nat :=
  if ('0' ≤ c) && (c ≤ '9') then c.toNat - 48
  else if ('a' ≤ c) && (c ≤ 'f') then c.toNat - 87
  else if ('A' ≤ c) && (c ≤ 'F') then c.toNat - 55
  else 0

/-- Every character of the string is a hexadecimal digit. -/
def isHexString (s : String) : Bool :=
  s.data.all isHexDigitChar

/-- Numeric value of a big-endian hexadecimal string. -/
def hexValue (s : String) : Nat :=
  s.data.foldl (fun a c => a * 16 + hexVal c) 0

/-- Split a character list into the groups delimited by `-`
(the semantics of splitting a string on the separator `-`). -/
def splitDash : List Char → List (List Char)
  | [] => [[]]
  | c :: cs =>
      match splitDash cs with
      | [] => [[]]
      | g :: gs => if c = '-' then [] :: g :: gs else (c :: g) :: gs

/-- Modelled from the spec: `traceparent::parse` (the codec's `parse`,
spec §4.1; the `traceparent` crate is an external dependency, not in this
repository's sources).  Splits on `-`, requires exactly 4 fields of widths
2/32/16/2, all hexadecimal, version `0`, and non-zero trace and parent ids;
any violation yields a `DecodeError`, never a partial parse. -/
def parse (text : String) : Except DecodeError Traceparent :=
  match (splitDash text.data).map String.mk with
  | [v, t, p, f] =>
      if ¬ (v.length = 2 ∧ t.length = 32 ∧ p.length = 16 ∧ f.length = 2) then
        .error .malformedStructure
      else if ¬ (isHexString v ∧ isHexString t ∧ isHexString p ∧ isHexString f) then
        .error .invalidHex
      else if hexValue v ≠ 0 then
        .error .unsupportedVersion
      else if hexValue t = 0 ∨ hexValue p = 0 then
        .error .zeroIdentifier
      else
        .ok ⟨hexValue v, hexValue t, hexValue p, hexValue f⟩
  | _ => .error .malformedStructure

/-- Modelled from the spec: `traceparent::make(false)` as used by
`update_traceparent` ("make a bogus one for comparison"); the spec's
`make_bogus` returns the all-zero sentinel, which intentionally fails
`parse`'s invariants (zero ids). -/
def make_bogus : Traceparent :=
  ⟨0, 0, 0, 0⟩

/-- The `SAMPLED` trace-flags bit (`opentelemetry::trace::TraceFlags::SAMPLED`). -/
def SAMPLED : Nat := 1

/-- An opentelemetry `SpanContext`: trace id, span id, trace flags,
remote marker, and trace state (a key/value list; `TraceState::NONE`
is the empty list). -/
structure SpanContext where
  trace_id : Nat
  span_id : Nat
  trace_flags : Nat
  is_remote : Bool
  trace_state : List (String × String)
  deriving DecidableEq, Repr

/-- `ToSpanContext::as_spancontext` from `src/lib.rs`: builds
`SpanContext::new(trace_id, parent_id, TraceFlags::SAMPLED, false,
TraceState::NONE)` — the parsed flags byte is ignored (hard-coded
`SAMPLED`, the commented-out `self.flags().into()` in the source). -/
def Traceparent.as_spancontext (tp : Traceparent) : SpanContext :=
  { trace_id := tp.trace_id
    span_id := tp.parent_id
    trace_flags := SAMPLED
    is_remote := false
    trace_state := [] }

/-- `read_traceparent` from `src/lib.rs`: reads the `TRACEPARENT`
environment slot (modelled as `Option String`); `None` when unset or
when `parse` fails. -/
def read_traceparent (env : Option String) : Option Traceparent :=
  match env with
  | some val =>
      match parse val with
      | .ok tp => some tp
      | .error _ => none
  | none => none

/-- `update_traceparent` from `src/lib.rs`: parses the supplied text; on
success compares it to the current value (or the bogus sentinel when none
is stored); if equal or on parse failure returns `none` and leaves the
slot alone, otherwise writes the new text and returns the converted span
context.  The pair is (returned value, resulting `TRACEPARENT` slot). -/
def update_traceparent (env : Option String) (new_traceparent : String) :
    Option SpanContext × Option String :=
  let current :=
    match read_traceparent env with
    | some c => c
    | none => make_bogus
  match parse new_traceparent with
  | .ok tp =>
      if tp = current then (none, env)
      else (some tp.as_spancontext, some new_traceparent)
  | .error _ => (none, env)

/-- Data of a span as produced by the tracing runtime: name, ids, optional
remote parent span id, flags, and the attached links (each a span context
plus key/value attributes). -/
structure SpanData where
  name : String
  trace_id : Nat
  span_id : Nat
  parent_span_id : Option Nat
  flags : Nat
  links : List (SpanContext × List (String × String))
  deriving DecidableEq, Repr

/-- Modelled from the spec: the Tracing Runtime collaborator's rootless
start (`tracer.start`, spec §6): a fresh root span with runtime-generated
trace and span ids and no parent. -/
def tracerStart (span_name : String) (freshTraceId freshSpanId : Nat) : SpanData :=
  { name := span_name
    trace_id := freshTraceId
    span_id := freshSpanId
    parent_span_id := none
    flags := SAMPLED
    links := [] }

/-- Modelled from the spec: the Tracing Runtime collaborator's
remote-child start (`tracer.start_with_context` with a remote span
context, spec §6): same trace id as the remote context, a fresh span id,
parent id set to the remote span id, sampling forced on. -/
def tracerStartWithContext (span_name : String) (remote : SpanContext)
    (freshSpanId : Nat) : SpanData :=
  { name := span_name
    trace_id := remote.trace_id
    span_id := freshSpanId
    parent_span_id := some remote.span_id
    flags := SAMPLED
    links := [] }

/-- Modelled from the spec: `Span::add_link` of the Tracing Runtime —
attaches a correlation link (span context plus key/value attributes)
to the span. -/
def SpanData.add_link (s : SpanData) (ctx : SpanContext)
    (attrs : List (String × String)) : SpanData :=
  { s with links := s.links ++ [(ctx, attrs)] }

/-- `start_with_traceparent` from `src/lib.rs`: if `read_traceparent`
yields a context, start the span with that context (converted through
`as_spancontext`) as remote parent, else start a fresh root span.
The runtime's fresh ids are passed explicitly. -/
def start_with_traceparent (env : Option String) (span_name : String)
    (freshTraceId freshSpanId : Nat) : SpanData :=
  match read_traceparent env with
  | some tp => tracerStartWithContext span_name tp.as_spancontext freshSpanId
  | none => tracerStart span_name freshTraceId freshSpanId

/-- `start_with_spanlink` from `src/lib.rs`: always start a fresh root
span; if `read_traceparent` yields a context, attach it as a link with
the placeholder `key`/`value` attribute. -/
def start_with_spanlink (env : Option String) (span_name : String)
    (freshTraceId freshSpanId : Nat) : SpanData :=
  let span := tracerStart span_name freshTraceId freshSpanId
  match read_traceparent env with
  | some tp => span.add_link tp.as_spancontext [(("key"), ("value"))]
  | none => span

/-- Lowercase hexadecimal digit character for a value below 16
(Rust's `{:x}` digit alphabet). -/
def hexDigitChar (n : Nat) : Char :=
  if n < 10 then Char.ofNat (48 + n) else Char.ofNat (87 + n)

/-- Big-endian fixed-width lowercase hexadecimal digit list of `n`
(Rust's zero-padded `{:0wx}` rendering, truncating above `16 ^ w`). -/
def hexChars : Nat → Nat → List Char
  | 0, _ => []
  | w + 1, n => hexChars w (n / 16) ++ [hexDigitChar (n % 16)]

/-- Fixed-width lowercase hexadecimal rendering of `n`. -/
def hexFixed (w n : Nat) : String :=
  String.mk (hexChars w n)

/-- The character is a lowercase hexadecimal digit. -/
def isLowerHexDigit (c : Char) : Bool :=
  (('0' ≤ c) && (c ≤ '9')) || (('a' ≤ c) && (c ≤ 'f'))

/-- `generate_traceparent` from `src/lib.rs`: inspects the active span's
context (`none` when no span is active, which in the runtime carries the
all-zero invalid context); if valid (both ids non-zero), renders
`format!("{:02x}-{}-{}-{:02x}", 0, trace_id, span_id, flags & SAMPLED)`
with the ids in fixed-width lowercase hex; else `None`. -/
def generate_traceparent (active : Option SpanContext) : Option String :=
  let span_context := active.getD ⟨0, 0, 0, false, []⟩
  if span_context.trace_id ≠ 0 ∧ span_context.span_id ≠ 0 then
    some (hexFixed 2 0 ++ "-" ++ hexFixed 32 span_context.trace_id ++ "-" ++
          hexFixed 16 span_context.span_id ++ "-" ++
          hexFixed 2 (span_context.trace_flags &&& SAMPLED))
  else
    none

/-- The canonical W3C example traceparent, used as concrete test input. -/
def tpCanonical : String :=
  "00-4bf92f3577b34da6a3ce929d0e0e4736-00f067aa0ba902b7-01"

/-- The parsed form of `tpCanonical`. -/
def tpCanonicalParsed : Traceparent :=
  ⟨0, 0x4bf92f3577b34da6a3ce929d0e0e4736, 0x00f067aa0ba902b7, 1⟩

/-- Any successfully parsed context satisfies the codec invariants:
version 0 and non-zero trace and parent ids. -/
theorem parse_ok_inv {s : String} {tp : Traceparent} (h : parse s = .ok tp) :
    tp.version = 0 ∧ tp.trace_id ≠ 0 ∧ tp.parent_id ≠ 0 := by
  unfold parse at h
  split at h
  · split at h
    · exact absurd h (by simp)
    · split at h
      · exact absurd h (by simp)
      · split at h
        · exact absurd h (by simp)
        · split at h
          · exact absurd h (by simp)
          · rename_i hv hz
            injection h with h2
            subst h2
            push_neg at hv hz
            exact ⟨hv, hz.1, hz.2⟩
  · exact absurd h (by simp)

/-- A successfully parsed context is never the all-zero sentinel. -/
theorem parse_ok_ne_bogus {s : String} {tp : Traceparent} (h : parse s = .ok tp) :
    tp ≠ make_bogus := by
  intro he
  have hz := (parse_ok_inv h).2.1
  rw [he] at hz
  exact hz rfl

/-- With nothing readable in the slot, an accepted update writes the new
text and returns the converted context. -/
theorem update_write_of_read_none {env : Option String} {s : String}
    {tp : Traceparent} (hr : read_traceparent env = none)
    (hp : parse s = .ok tp) :
    update_traceparent env s = (some tp.as_spancontext, some s) := by
  simp only [update_traceparent, hr, hp]
  rw [if_neg (parse_ok_ne_bogus hp)]

/-- An update whose parsed value equals the stored one is a no-op. -/
theorem update_noop_of_eq {env : Option String} {s : String}
    {tp cur : Traceparent} (hr : read_traceparent env = some cur)
    (hp : parse s = .ok tp) (he : tp = cur) :
    update_traceparent env s = (none, env) := by
  simp only [update_traceparent, hr, hp]
  rw [if_pos he]

/-- An update whose text fails to parse changes nothing. -/
theorem update_id_of_error {env : Option String} {s : String}
    {e : DecodeError} (hp : parse s = .error e) :
    update_traceparent env s = (none, env) := by
  simp only [update_traceparent, hp]

/-- C3: if the TRACEPARENT slot is unset or holds text that parse rejects,
updating with text that parse accepts reports a change (returns the decoded
context rather than none), writes the new text into the slot, and a
subsequent read yields the same parsed context. -/
theorem update_then_read (env : Option String) (s : String) (tp : Traceparent)
    (hr : read_traceparent env = none) (hp : parse s = .ok tp) :
    update_traceparent env s = (some tp.as_spancontext, some s) ∧
    read_traceparent (some s) = some tp := by
  refine ⟨update_write_of_read_none hr hp, ?_⟩
  simp only [read_traceparent, hp]

/-- C3 witness: the canonical example written into an unset slot. -/
theorem update_then_read_witness :
    update_traceparent none tpCanonical =
      (some tpCanonicalParsed.as_spancontext, some tpCanonical) ∧
    read_traceparent (some tpCanonical) = some tpCanonicalParsed :=
  update_then_read none tpCanonical tpCanonicalParsed (by rfl) (by rfl)

/-- C4: updating with text whose parsed value is exactly equal — all four
fields — to the currently stored parsed value returns the no-change result
and does not write to the slot. -/
theorem update_noop (env : Option String) (s : String) (tp cur : Traceparent)
    (hr : read_traceparent env = some cur) (hp : parse s = .ok tp)
    (he : tp = cur) :
    update_traceparent env s = (none, env) :=
  update_noop_of_eq hr hp he

/-- C4 witness: re-writing the canonical example over itself is a no-op. -/
theorem update_noop_witness :
    update_traceparent (some tpCanonical) tpCanonical = (none, some tpCanonical) :=
  update_noop (some tpCanonical) tpCanonical tpCanonicalParsed tpCanonicalParsed
    (by rfl) (by rfl) rfl

/-- C5: updating with text that parse rejects returns the no-change result
and performs no mutation, whatever the prior state of the slot. -/
theorem update_rejects_malformed (env : Option String) (s : String)
    (e : DecodeError) (hp : parse s = .error e) :
    update_traceparent env s = (none, env) :=
  update_id_of_error hp

/-- C5 witness: malformed text against a populated slot. -/
theorem update_rejects_malformed_witness :
    update_traceparent (some tpCanonical) ("hello") = (none, some tpCanonical) :=
  update_rejects_malformed (some tpCanonical) ("hello")
    DecodeError.malformedStructure (by rfl)

/-- C6: the sentinel update_traceparent compares against when read yields
nothing is the all-zero context; it fails parse's invariants, so no
parse-accepted value ever equals it — with nothing stored, every accepted
update therefore writes rather than no-ops. -/
theorem make_bogus_sentinel :
    make_bogus = ⟨0, 0, 0, 0⟩ ∧
    (∀ (s : String) (tp : Traceparent), parse s = .ok tp → tp ≠ make_bogus) ∧
    (∀ (env : Option String) (s : String) (tp : Traceparent),
        read_traceparent env = none → parse s = .ok tp →
        (update_traceparent env s).1 = some tp.as_spancontext) := by
  refine ⟨rfl, fun s tp hp => parse_ok_ne_bogus hp, fun env s tp hr hp => ?_⟩
  rw [update_write_of_read_none hr hp]

/-- C6 witness: the canonical parsed value differs from the sentinel and
its update against an empty slot returns the converted context. -/
theorem make_bogus_sentinel_witness :
    tpCanonicalParsed ≠ make_bogus ∧
    (update_traceparent none tpCanonical).1 = some tpCanonicalParsed.as_spancontext :=
  ⟨make_bogus_sentinel.2.1 tpCanonical tpCanonicalParsed (by rfl),
   make_bogus_sentinel.2.2 none tpCanonical tpCanonicalParsed (by rfl) (by rfl)⟩

/-- C7 counterexample: a decode failure of caller-supplied input is NOT
distinguishable from a successful no-op update — at these concrete inputs
both calls return the identical result (none, slot untouched). -/
theorem update_error_indistinguishable_cex :
    parse ("hello") = .error .malformedStructure ∧
    update_traceparent (some tpCanonical) ("hello") = (none, some tpCanonical) ∧
    update_traceparent (some tpCanonical) ("hello") =
      update_traceparent (some tpCanonical) tpCanonical := by
  exact ⟨rfl, rfl, rfl⟩

/-- C7 (amended): decode errors from caller-supplied data are swallowed —
update_traceparent returns the same no-change result (none) for a decode
failure of its input as for a successful no-op update, so the caller cannot
distinguish the two from the returned value. -/
theorem update_error_not_distinguished (env : Option String) (bad good : String)
    (e : DecodeError) (tp cur : Traceparent)
    (hbad : parse bad = .error e)
    (hr : read_traceparent env = some cur) (hgood : parse good = .ok tp)
    (he : tp = cur) :
    update_traceparent env bad = update_traceparent env good ∧
    (update_traceparent env bad).1 = none := by
  rw [update_id_of_error hbad, update_noop_of_eq hr hgood he]
  exact ⟨rfl, rfl⟩

/-- C7 (amended) witness at concrete inputs. -/
theorem update_error_not_distinguished_witness :
    update_traceparent (some tpCanonical) ("hello") =
      update_traceparent (some tpCanonical) tpCanonical ∧
    (update_traceparent (some tpCanonical) ("hello")).1 = none :=
  update_error_not_distinguished (some tpCanonical) ("hello") tpCanonical
    DecodeError.malformedStructure tpCanonicalParsed tpCanonicalParsed
    (by rfl) (by rfl) (by rfl) rfl

/-- C8: read_traceparent returns none both when the slot is unset and when
its value fails parse; a context is returned only when parse accepts the
stored text — no decode error is ever surfaced to the caller. -/
theorem read_swallows_errors :
    read_traceparent none = none ∧
    (∀ (s : String) (e : DecodeError), parse s = .error e →
        read_traceparent (some s) = none) ∧
    (∀ (env : Option String) (tp : Traceparent),
        read_traceparent env = some tp →
        ∃ s, env = some s ∧ parse s = .ok tp) := by
  refine ⟨rfl, fun s e hp => by simp only [read_traceparent, hp], ?_⟩
  intro env tp h
  match env with
  | none => exact absurd h (by simp [read_traceparent])
  | some val =>
      refine ⟨val, rfl, ?_⟩
      simp only [read_traceparent] at h
      cases hp : parse val with
      | error e =>
          rw [hp] at h
          simp at h
      | ok tp2 =>
          rw [hp] at h
          simp at h
          rw [← h]

/-- C8 witness: a malformed stored value reads as none. -/
theorem read_swallows_errors_witness :
    read_traceparent (some ("hello")) = none :=
  read_swallows_errors.2.1 ("hello") DecodeError.malformedStructure (by rfl)

/-- With a stored value whose parse differs from the new text's parse,
an accepted update writes and returns the converted context. -/
theorem update_write_of_ne {env : Option String} {s : String}
    {tp cur : Traceparent} (hr : read_traceparent env = some cur)
    (hp : parse s = .ok tp) (hne : tp ≠ cur) :
    update_traceparent env s = (some tp.as_spancontext, some s) := by
  simp only [update_traceparent, hr, hp]
  rw [if_neg hne]

/-- C1: when the TRACEPARENT slot holds text that parse accepts, the span
started by start_with_traceparent is a remote child of the ambient context —
same trace id, parent id equal to the ambient parent/span id — and the
remote span context handed to the tracer carries trace flags forced to
SAMPLED regardless of the ambient flags byte; when no valid ambient context
exists, the span is a fresh root span. -/
theorem start_with_traceparent_spec (env : Option String) (nm : String)
    (ft fs : Nat) :
    (∀ (s : String) (tp : Traceparent), env = some s → parse s = .ok tp →
        (start_with_traceparent env nm ft fs).trace_id = tp.trace_id ∧
        (start_with_traceparent env nm ft fs).parent_span_id = some tp.parent_id ∧
        tp.as_spancontext.trace_flags = SAMPLED ∧
        (start_with_traceparent env nm ft fs).flags = SAMPLED) ∧
    (read_traceparent env = none →
        start_with_traceparent env nm ft fs = tracerStart nm ft fs ∧
        (start_with_traceparent env nm ft fs).parent_span_id = none ∧
        (start_with_traceparent env nm ft fs).trace_id = ft) := by
  constructor
  · rintro s tp rfl hp
    have hr : read_traceparent (some s) = some tp := by
      simp only [read_traceparent, hp]
    simp [start_with_traceparent, hr, tracerStartWithContext,
      Traceparent.as_spancontext]
  · intro hr
    simp [start_with_traceparent, hr, tracerStart]

/-- C1 witness: the canonical ambient context is continued (ids copied),
and an empty slot yields a rootless span. -/
theorem start_with_traceparent_spec_witness :
    (start_with_traceparent (some tpCanonical) ("work") 5 7).trace_id =
      0x4bf92f3577b34da6a3ce929d0e0e4736 ∧
    (start_with_traceparent (some tpCanonical) ("work") 5 7).parent_span_id =
      some 0x00f067aa0ba902b7 ∧
    (start_with_traceparent none ("work") 5 7).parent_span_id = none :=
  ⟨((start_with_traceparent_spec (some tpCanonical) ("work") 5 7).1 tpCanonical
      tpCanonicalParsed rfl (by rfl)).1,
   ((start_with_traceparent_spec (some tpCanonical) ("work") 5 7).1 tpCanonical
      tpCanonicalParsed rfl (by rfl)).2.1,
   ((start_with_traceparent_spec none ("work") 5 7).2 rfl).2.1⟩

/-- C9: start_with_spanlink always produces a fresh root span (trace id
drawn from the runtime's fresh supply, never a remote child), whose trace
id differs from the ambient one whenever the freshly generated id does;
the correlation link — carrying the placeholder key/value annotation — is
attached iff the slot holds a context that parse accepts. -/
theorem start_with_spanlink_spec (env : Option String) (nm : String)
    (ft fs : Nat) :
    (start_with_spanlink env nm ft fs).trace_id = ft ∧
    (start_with_spanlink env nm ft fs).parent_span_id = none ∧
    (∀ tp : Traceparent, read_traceparent env = some tp →
        (ft ≠ tp.trace_id →
            (start_with_spanlink env nm ft fs).trace_id ≠ tp.trace_id) ∧
        (start_with_spanlink env nm ft fs).links =
          [(tp.as_spancontext, [(("key"), ("value"))])]) ∧
    (read_traceparent env = none →
        (start_with_spanlink env nm ft fs).links = []) := by
  cases hr : read_traceparent env with
  | none => simp [start_with_spanlink, hr, tracerStart, SpanData.add_link]
  | some tp => simp [start_with_spanlink, hr, tracerStart, SpanData.add_link]

/-- C9 witness: with the canonical ambient context and fresh trace id 5,
the span is rootless with trace id 5 (distinct from the ambient trace id)
and carries exactly the placeholder-annotated link; with an empty slot
there is no link. -/
theorem start_with_spanlink_spec_witness :
    (start_with_spanlink (some tpCanonical) ("work") 5 7).trace_id = 5 ∧
    (start_with_spanlink (some tpCanonical) ("work") 5 7).trace_id ≠
      tpCanonicalParsed.trace_id ∧
    (start_with_spanlink (some tpCanonical) ("work") 5 7).links =
      [(tpCanonicalParsed.as_spancontext, [(("key"), ("value"))])] ∧
    (start_with_spanlink none ("work") 5 7).links = [] :=
  ⟨(start_with_spanlink_spec (some tpCanonical) ("work") 5 7).1,
   ((start_with_spanlink_spec (some tpCanonical) ("work") 5 7).2.2.1
      tpCanonicalParsed (by rfl)).1 (by decide),
   ((start_with_spanlink_spec (some tpCanonical) ("work") 5 7).2.2.1
      tpCanonicalParsed (by rfl)).2,
   (start_with_spanlink_spec none ("work") 5 7).2.2.2 rfl⟩

/-- C10: the conversion shared by update_traceparent,
start_with_traceparent and start_with_spanlink always yields trace flags
exactly SAMPLED and an empty trace state, whatever the parsed flags byte
was — in particular every context returned by a successful
update_traceparent carries them. -/
theorem as_spancontext_forces_sampled (tp : Traceparent) :
    tp.as_spancontext.trace_flags = SAMPLED ∧
    tp.as_spancontext.trace_state = [] ∧
    (∀ (env : Option String) (s : String) (sc : SpanContext),
        (update_traceparent env s).1 = some sc →
        sc.trace_flags = SAMPLED ∧ sc.trace_state = []) := by
  refine ⟨rfl, rfl, ?_⟩
  intro env s sc h
  cases hp : parse s with
  | error e =>
      rw [update_id_of_error hp] at h
      simp at h
  | ok tp2 =>
      cases hr : read_traceparent env with
      | none =>
          rw [update_write_of_read_none hr hp] at h
          simp at h
          subst h
          exact ⟨rfl, rfl⟩
      | some cur =>
          by_cases he : tp2 = cur
          · rw [update_noop_of_eq hr hp he] at h
            simp at h
          · rw [update_write_of_ne hr hp he] at h
            simp at h
            subst h
            exact ⟨rfl, rfl⟩

/-- Digit characters render in the lowercase hexadecimal alphabet. -/
theorem hexDigitChar_lower {d : Nat} (h : d < 16) :
    isLowerHexDigit (hexDigitChar d) = true := by
  interval_cases d <;> decide

/-- Rendering a digit and reading it back is the identity. -/
theorem hexVal_hexDigitChar {d : Nat} (h : d < 16) :
    hexVal (hexDigitChar d) = d := by
  interval_cases d <;> decide

/-- Fixed-width rendering yields exactly the requested number of digits. -/
theorem hexChars_length (w n : Nat) : (hexChars w n).length = w := by
  induction w generalizing n with
  | zero => rfl
  | succ w ih => simp [hexChars, ih]

/-- Reading back the rendered digits recovers the value modulo `16 ^ w`. -/
theorem foldl_hexChars (w n : Nat) :
    List.foldl (fun a c => a * 16 + hexVal c) 0 (hexChars w n) = n % 16 ^ w := by
  induction w generalizing n with
  | zero => simp [hexChars, Nat.mod_one]
  | succ w ih =>
      simp only [hexChars, List.foldl_append, List.foldl_cons, List.foldl_nil]
      rw [ih (n / 16), hexVal_hexDigitChar (Nat.mod_lt n (by norm_num))]
      have h16 : (16 : Nat) ^ (w + 1) = 16 * 16 ^ w := by ring
      rw [h16, Nat.mod_mul]
      ring

/-- The fixed-width hexadecimal rendering is faithful below `16 ^ w`. -/
theorem hexValue_hexFixed {w n : Nat} (h : n < 16 ^ w) :
    hexValue (hexFixed w n) = n := by
  have hk := foldl_hexChars w n
  have hm : n % 16 ^ w = n := Nat.mod_eq_of_lt h
  simpa [hexValue, hexFixed, hm] using hk

/-- Every rendered character is a lowercase hexadecimal digit. -/
theorem hexFixed_lower (w n : Nat) :
    ∀ c ∈ (hexFixed w n).data, isLowerHexDigit c = true := by
  suffices hs : ∀ (v m : Nat), ∀ c ∈ hexChars v m, isLowerHexDigit c = true by
    intro c hc
    exact hs w n c hc
  intro v
  induction v with
  | zero =>
      intro m c hc
      cases hc
  | succ v ih =>
      intro m c hc
      simp only [hexChars] at hc
      rcases List.mem_append.mp hc with h1 | h2
      · exact ih (m / 16) c h1
      · rw [List.mem_singleton.mp h2]
        exact hexDigitChar_lower (Nat.mod_lt m (by norm_num))

/-- C2: for an active span context with non-zero trace and span ids,
generate_traceparent returns exactly `00-` followed by the trace id as 32
lowercase hex digits, the span id as 16 lowercase hex digits, and the flags
masked to the sampled bit as 2 hex digits — `01` when sampled; with no
active span, or zero ids, it returns none.  The auxiliary conjuncts pin the
rendering down: fixed widths, lowercase alphabet, and value-faithfulness
within the 128-bit and 64-bit machine ranges. -/
theorem generate_traceparent_spec :
    (∀ sc : SpanContext, sc.trace_id ≠ 0 → sc.span_id ≠ 0 →
        generate_traceparent (some sc) =
          some (("00") ++ "-" ++ hexFixed 32 sc.trace_id ++ "-" ++
                hexFixed 16 sc.span_id ++ "-" ++
                hexFixed 2 (sc.trace_flags &&& SAMPLED))) ∧
    (∀ n : Nat, (hexFixed 32 n).length = 32 ∧ (hexFixed 16 n).length = 16) ∧
    (∀ n : Nat, n < 16 ^ 32 → hexValue (hexFixed 32 n) = n) ∧
    (∀ n : Nat, n < 16 ^ 16 → hexValue (hexFixed 16 n) = n) ∧
    (∀ n : Nat, ∀ c ∈ (hexFixed 32 n).data, isLowerHexDigit c = true) ∧
    (∀ sc : SpanContext, sc.trace_flags &&& SAMPLED = 1 →
        hexFixed 2 (sc.trace_flags &&& SAMPLED) = ("01")) ∧
    generate_traceparent none = none ∧
    (∀ sc : SpanContext, sc.trace_id = 0 ∨ sc.span_id = 0 →
        generate_traceparent (some sc) = none) := by
  refine ⟨?_, ?_, ?_, ?_, ?_, ?_, rfl, ?_⟩
  · intro sc h1 h2
    simp only [generate_traceparent, Option.getD_some]
    rw [if_pos ⟨h1, h2⟩]
    rfl
  · intro n
    exact ⟨hexChars_length 32 n, hexChars_length 16 n⟩
  · intro n h
    exact hexValue_hexFixed h
  · intro n h
    exact hexValue_hexFixed h
  · intro n
    exact hexFixed_lower 32 n
  · intro sc h
    rw [h]
    rfl
  · intro sc h
    simp only [generate_traceparent, Option.getD_some]
    rw [if_neg (by tauto)]

/-- The span context of the worked example: the canonical ids, sampled. -/
def scExample : SpanContext :=
  ⟨0x4bf92f3577b34da6a3ce929d0e0e4736, 0x00f067aa0ba902b7, 1, false, []⟩

/-- C2 witness: the canonical sampled context renders to exactly the
canonical traceparent string, and the rendering round-trips its value. -/
theorem generate_traceparent_spec_witness :
    generate_traceparent (some scExample) = some tpCanonical ∧
    hexValue (hexFixed 32 scExample.trace_id) = scExample.trace_id ∧
    hexFixed 2 (scExample.trace_flags &&& SAMPLED) = ("01") :=
  ⟨by rw [generate_traceparent_spec.1 scExample (by decide) (by decide)]; rfl,
   generate_traceparent_spec.2.2.1 scExample.trace_id (by decide),
   generate_traceparent_spec.2.2.2.2.2.1 scExample (by decide)⟩

/-- C10 witness: the context returned by a successful update at the
canonical input carries flags SAMPLED and empty trace state; the parsed
flags byte of the input (1) is irrelevant. -/
theorem as_spancontext_forces_sampled_witness :
    (update_traceparent none tpCanonical).1 =
      some tpCanonicalParsed.as_spancontext ∧
    tpCanonicalParsed.as_spancontext.trace_flags = SAMPLED ∧
    tpCanonicalParsed.as_spancontext.trace_state = [] :=
  ⟨by rfl,
   ((as_spancontext_forces_sampled tpCanonicalParsed).2.2 none tpCanonical
      tpCanonicalParsed.as_spancontext (by rfl)).1,
   ((as_spancontext_forces_sampled tpCanonicalParsed).2.2 none tpCanonical
      tpCanonicalParsed.as_spancontext (by rfl)).2⟩
